import Mathlib

/-!
Shallow embedding of the LunarScry protocol (src/lunar_scry.rs) and proofs
about its voting, rate-limiting, finalization, reward and admin logic.

Modelling conventions:
* u64 / u32 values are Nat with explicit bounds U64_MAX / U32_MAX; checked
  arithmetic returns Option, unchecked arithmetic that can fault (overflow,
  division by zero, with overflow checks enabled) is modelled by the
  ProgResult.panicked outcome.
* i64 timestamps are Int; the only i64 operation the source checks,
  checked_sub in calculate_time_weight, is modelled with explicit i64 bounds.
* External collaborators (token transfers, signature checks, account keys,
  the clock) are parameters: the clock value is passed as an argument, and
  token transfers are treated as the always-succeeding external service the
  spec describes.
-/

def PROGRAM_VERSION : Nat := 3
def MAX_EMERGENCY_ADMINS : Nat := 10
def MAX_CONTENT_HASH_LENGTH : Nat := 64
def MIN_VOTING_PERIOD : Int := 86400
def MAX_VOTING_PERIOD : Int := 2592000
def MIN_QUORUM_PERCENTAGE : Nat := 10
def MAX_QUORUM_PERCENTAGE : Nat := 90
def STAKE_LOCKUP_PERIOD : Int := 86400
def EARLY_VOTER_BONUS : Nat := 30
def MAX_DAILY_SUBMISSIONS : Nat := 10000
def MAX_DAILY_VOTES : Nat := 100000
def MAX_STAKE_PER_USER : Nat := 10000000000
def MIN_AI_CONFIDENCE : Nat := 50
def VOTE_COOLDOWN_PERIOD : Int := 10
def REWARD_DISTRIBUTION_PERIOD : Int := 86400

def U64_MAX : Nat := 18446744073709551615
def U32_MAX : Nat := 4294967295
def I64_MAX : Int := 9223372036854775807
def I64_MIN : Int := -9223372036854775808

/-- Account addresses (Solana Pubkeys) are opaque identities; model them as Nat. -/
abbrev Pubkey := Nat

/-- Modelled from the spec: the ContentType enum definition is absent from src/;
the source only tests equality with the Video and DeFi variants, and the spec
describes it as an enum with further supported kinds. -/
inductive ContentType where
  | Text
  | Image
  | Video
  | DeFi
deriving DecidableEq, Repr

inductive ContentStatus where
  | Pending
  | Approved
  | Rejected
deriving DecidableEq, Repr

inductive VoteType where
  | Approve
  | Reject
deriving DecidableEq, Repr

inductive VoteStatus where
  | Active
  | Rewarded
deriving DecidableEq, Repr

/-- Error codes referenced by the source (the declared enum plus the variants
used by require! sites). -/
inductive ErrorCode where
  | UnsupportedContentType
  | ContentHashTooLong
  | VotingPeriodActive
  | RewardsAlreadyClaimed
  | InvalidQuorumPercentage
  | InvalidVotingPeriod
  | InvalidRewardPerVote
  | MaxEmergencyAdminsReached
  | CannotRemoveLastAdmin
  | RewardDistributionNotDue
  | ProtocolPaused
  | CalculationError
  | InvalidStakeAmount
  | VotingPeriodEnded
  | VotingTooFrequent
  | StakeStillLocked
  | Unauthorized
  | LowAIConfidence
  | InsufficientRewardPool
  | QuorumNotReached
deriving DecidableEq, Repr

/-- Outcome of an instruction: Ok value, typed Err, or an arithmetic fault
(unchecked overflow / division by zero) that aborts the transaction. -/
inductive ProgResult (α : Type) where
  | ok (a : α)
  | err (e : ErrorCode)
  | panicked
deriving DecidableEq, Repr

structure ProtocolState where
  admin : Pubkey
  treasury : Pubkey
  stake_required : Nat
  voting_period : Int
  quorum_percentage : Nat
  reward_per_vote : Nat
  is_paused : Bool
  daily_submission_count : Nat
  daily_vote_count : Nat
  last_reset_timestamp : Int
  last_reward_distribution_timestamp : Int
  version : Nat
  bump : Nat
  emergency_admins : List Pubkey
deriving DecidableEq, Repr

structure Content where
  submitter : Pubkey
  content_hash : List Nat
  content_type : ContentType
  ai_score : Nat
  submission_time : Int
  status : ContentStatus
  approve_votes : Nat
  reject_votes : Nat
  total_stake : Nat
  voting_period : Int
  quorum_percentage : Nat
  vote_count : Nat
  last_vote_timestamp : Int
  version : Nat
  bump : Nat
  moderation_flags : Nat
deriving DecidableEq, Repr

structure Vote where
  voter : Pubkey
  content_id : Pubkey
  vote_type : VoteType
  stake_amount : Nat
  vote_timestamp : Int
  status : VoteStatus
deriving DecidableEq, Repr

/-- Modelled from the spec: the ContentData struct definition is absent from
src/; its fields are read at the submit_content call sites (content_hash,
content_type, ai_score). -/
structure ContentData where
  content_hash : List Nat
  content_type : ContentType
  ai_score : Nat
deriving DecidableEq, Repr

def checkedAddU64 (a b : Nat) : Option Nat :=
  if a + b ≤ U64_MAX then some (a + b) else none

def checkedAddU32 (a b : Nat) : Option Nat :=
  if a + b ≤ U32_MAX then some (a + b) else none

def checkedSubI64 (a b : Int) : Option Int :=
  if I64_MIN ≤ a - b ∧ a - b ≤ I64_MAX then some (a - b) else none

/-- ProtocolState::check_active_status. -/
def ProtocolState.check_active_status (p : ProtocolState) : ProgResult Unit :=
  if p.is_paused then .err .ProtocolPaused else .ok ()

/-- ProtocolState::check_and_update_daily_limits. -/
def ProtocolState.check_and_update_daily_limits (p : ProtocolState) (now : Int) :
    ProtocolState :=
  if 86400 ≤ now - p.last_reset_timestamp then
    { p with
      daily_submission_count := 0, daily_vote_count := 0,
      last_reset_timestamp := now }
  else p

/-- ProtocolState::increment_submission_count. -/
def ProtocolState.increment_submission_count (p : ProtocolState) :
    ProgResult ProtocolState :=
  match checkedAddU32 p.daily_submission_count 1 with
  | some n => .ok { p with daily_submission_count := n }
  | none => .err .CalculationError

/-- ProtocolState::increment_vote_count. -/
def ProtocolState.increment_vote_count (p : ProtocolState) :
    ProgResult ProtocolState :=
  match checkedAddU32 p.daily_vote_count 1 with
  | some n => .ok { p with daily_vote_count := n }
  | none => .err .CalculationError

/-- ProtocolState::validate_vote_transaction. -/
def ProtocolState.validate_vote_transaction (p : ProtocolState) (c : Content)
    (stake_amount : Nat) (now : Int) : ProgResult Unit :=
  if p.is_paused then .err .ProtocolPaused
  else if p.stake_required ≤ stake_amount ∧ stake_amount ≤ MAX_STAKE_PER_USER then
    if now ≤ c.submission_time + c.voting_period then
      if c.last_vote_timestamp + VOTE_COOLDOWN_PERIOD ≤ now then .ok ()
      else .err .VotingTooFrequent
    else .err .VotingPeriodEnded
  else .err .InvalidStakeAmount

/-- A freshly allocated Content account: the Anchor runtime zero-initializes
account data before Content::initialize writes its fields (which notably does
not touch the vote accumulators). -/
def zeroContent : Content :=
  { submitter := 0, content_hash := [], content_type := .Text, ai_score := 0,
    submission_time := 0, status := .Pending, approve_votes := 0,
    reject_votes := 0, total_stake := 0, voting_period := 0,
    quorum_percentage := 0, vote_count := 0, last_vote_timestamp := 0,
    version := 0, bump := 0, moderation_flags := 0 }

/-- Content::initialize (renamed initContent): writes the listed fields,
leaving the accumulators as the runtime left them. -/
def initContent (c : Content) (submitter : Pubkey) (d : ContentData)
    (p : ProtocolState) (now : Int) (bump : Nat) : Content :=
  { c with
    submitter := submitter, content_hash := d.content_hash,
    content_type := d.content_type, ai_score := d.ai_score,
    submission_time := now, status := .Pending,
    voting_period := p.voting_period,
    quorum_percentage := p.quorum_percentage,
    version := PROGRAM_VERSION, bump := bump }

/-- Content::process_vote; now is the Clock value read for last_vote_timestamp. -/
def Content.process_vote (c : Content) (vote_type : VoteType)
    (stake_amount : Nat) (now : Int) : ProgResult Content :=
  match vote_type with
  | .Approve =>
    match checkedAddU64 c.approve_votes stake_amount with
    | none => .err .CalculationError
    | some av =>
      match checkedAddU64 c.total_stake stake_amount with
      | none => .err .CalculationError
      | some ts =>
        match checkedAddU32 c.vote_count 1 with
        | none => .err .CalculationError
        | some vc =>
          .ok { c with
                approve_votes := av, total_stake := ts,
                vote_count := vc, last_vote_timestamp := now }
  | .Reject =>
    match checkedAddU64 c.reject_votes stake_amount with
    | none => .err .CalculationError
    | some rv =>
      match checkedAddU64 c.total_stake stake_amount with
      | none => .err .CalculationError
      | some ts =>
        match checkedAddU32 c.vote_count 1 with
        | none => .err .CalculationError
        | some vc =>
          .ok { c with
                reject_votes := rv, total_stake := ts,
                vote_count := vc, last_vote_timestamp := now }

/-- Modelled from the spec: Vote::initialize's body is absent from src/ (only
its call site and the Vote struct are); it writes the five call-site arguments
and starts the record in the Active status per spec section 3. -/
def initVote (voter : Pubkey) (content_id : Pubkey) (vote_type : VoteType)
    (stake_amount : Nat) (now : Int) : Vote :=
  { voter := voter, content_id := content_id, vote_type := vote_type,
    stake_amount := stake_amount, vote_timestamp := now, status := .Active }

/-- lunar_scry::submit_content, acting on a freshly allocated content account. -/
def submit_content (p : ProtocolState) (c : Content) (submitter : Pubkey)
    (d : ContentData) (now : Int) (bump : Nat) :
    ProgResult (ProtocolState × Content) :=
  if p.is_paused then .err .ProtocolPaused
  else
    let p1 := p.check_and_update_daily_limits now
    if d.content_type = ContentType.Video ∨ d.content_type = ContentType.DeFi then
      .err .UnsupportedContentType
    else if d.content_hash.length ≤ MAX_CONTENT_HASH_LENGTH then
      if MIN_AI_CONFIDENCE ≤ d.ai_score then
        let c1 := initContent c submitter d p1 now bump
        match p1.increment_submission_count with
        | .ok p2 => .ok (p2, c1)
        | .err e => .err e
        | .panicked => .panicked
      else .err .LowAIConfidence
    else .err .ContentHashTooLong

/-- lunar_scry::cast_vote; the token transfer is the external value-transfer
service (assumed to succeed), contentKey is the content account's address. -/
def cast_vote (p : ProtocolState) (c : Content) (voter : Pubkey)
    (contentKey : Pubkey) (vote_type : VoteType) (stake_amount : Nat)
    (now : Int) : ProgResult (ProtocolState × Content × Vote) :=
  match p.validate_vote_transaction c stake_amount now with
  | .err e => .err e
  | .panicked => .panicked
  | .ok _ =>
    match c.process_vote vote_type stake_amount now with
    | .err e => .err e
    | .panicked => .panicked
    | .ok c1 =>
      let v := initVote voter contentKey vote_type stake_amount now
      match p.increment_vote_count with
      | .err e => .err e
      | .panicked => .panicked
      | .ok p1 => .ok (p1, c1, v)

/-- lunar_scry::finalize_decision. The u64 sum approve_votes + reject_votes and
the product total_stake * quorum_percentage are unchecked in the source; with
overflow checks they fault, modelled as panicked. -/
def finalize_decision (p : ProtocolState) (c : Content) (now : Int) :
    ProgResult Content :=
  if p.is_paused then .err .ProtocolPaused
  else if c.submission_time + c.voting_period < now then
    if U64_MAX < c.approve_votes + c.reject_votes then .panicked
    else if U64_MAX < c.total_stake * c.quorum_percentage then .panicked
    else if c.total_stake * c.quorum_percentage / 100 ≤
            c.approve_votes + c.reject_votes then
      .ok { c with
            status :=
              if c.reject_votes < c.approve_votes then ContentStatus.Approved
              else ContentStatus.Rejected }
    else .err .QuorumNotReached
  else .err .VotingPeriodActive

/-- lunar_scry::claim_rewards. The reward expression
stake_amount * reward_per_vote / total_stake is unchecked in the source: the
multiplication can overflow and the division has no zero guard; both fault,
modelled as panicked. Returns the updated vote and the transferred reward. -/
def claim_rewards (p : ProtocolState) (c : Content) (v : Vote)
    (voterKey : Pubkey) (now : Int) : ProgResult (Vote × Nat) :=
  if p.is_paused then .err .ProtocolPaused
  else if v.vote_timestamp + STAKE_LOCKUP_PERIOD ≤ now then
    if v.voter = voterKey then
      if v.status = VoteStatus.Active then
        if U64_MAX < v.stake_amount * p.reward_per_vote then .panicked
        else if c.total_stake = 0 then .panicked
        else .ok ({ v with status := .Rewarded },
                  v.stake_amount * p.reward_per_vote / c.total_stake)
      else .err .RewardsAlreadyClaimed
    else .err .Unauthorized
  else .err .StakeStillLocked

/-- lunar_scry::calculate_time_weight. -/
def calculate_time_weight (vote_timestamp current_timestamp : Int) :
    ProgResult Nat :=
  match checkedSubI64 current_timestamp vote_timestamp with
  | none => .err .CalculationError
  | some time_diff =>
    if time_diff < 86400 then .ok 100
    else if time_diff < 259200 then .ok 75
    else if time_diff < 604800 then .ok 50
    else .ok 25

/-- lunar_scry::add_emergency_admin. -/
def add_emergency_admin (p : ProtocolState) (caller new_admin : Pubkey) :
    ProgResult ProtocolState :=
  if p.emergency_admins.length < MAX_EMERGENCY_ADMINS then
    if caller ∈ p.emergency_admins then
      .ok { p with emergency_admins := p.emergency_admins ++ [new_admin] }
    else .err .Unauthorized
  else .err .MaxEmergencyAdminsReached

/-- lunar_scry::remove_emergency_admin. -/
def remove_emergency_admin (p : ProtocolState) (caller target : Pubkey) :
    ProgResult ProtocolState :=
  if 1 < p.emergency_admins.length then
    if caller ∈ p.emergency_admins then
      .ok { p with emergency_admins :=
            p.emergency_admins.filter (fun a => a != target) }
    else .err .Unauthorized
  else .err .CannotRemoveLastAdmin

/-- Sequential application of Content::process_vote to a list of
(vote_type, stake_amount, clock) triples. -/
def processVotes (c : Content) (vs : List (VoteType × Nat × Int)) :
    ProgResult Content :=
  match vs with
  | [] => .ok c
  | (vt, s, t) :: rest =>
    match c.process_vote vt s t with
    | .ok c1 => processVotes c1 rest
    | .err e => .err e
    | .panicked => .panicked

/-! Concrete states used by the claim theorems. -/

def c1Protocol : ProtocolState :=
  { admin := 1, treasury := 2, stake_required := 100, voting_period := 86400,
    quorum_percentage := 50, reward_per_vote := 10, is_paused := false,
    daily_submission_count := 10000, daily_vote_count := 0,
    last_reset_timestamp := 0, last_reward_distribution_timestamp := 0,
    version := 3, bump := 0, emergency_admins := [1] }

def c1Data : ContentData :=
  { content_hash := [1, 2, 3], content_type := .Text, ai_score := 80 }

def c1ProtocolAfter : ProtocolState :=
  { c1Protocol with daily_submission_count := 10001 }

def c1ContentAfter : Content :=
  initContent zeroContent 7 c1Data c1Protocol 1000 0

/-- C1: the claim states that once daily_submission_count has reached
MAX_DAILY_SUBMISSIONS, the next submit_content inside the 24h window fails
with a resource-limit error and the counter stays at the cap. The code has no
such check (MAX_DAILY_SUBMISSIONS is declared but never read): at the cap,
inside the window, the submission succeeds and the counter becomes
MAX_DAILY_SUBMISSIONS + 1. -/
theorem c1_daily_limit_not_enforced :
    c1Protocol.daily_submission_count = MAX_DAILY_SUBMISSIONS ∧
    (1000 : Int) - c1Protocol.last_reset_timestamp < 86400 ∧
    submit_content c1Protocol zeroContent 7 c1Data 1000 0 =
      .ok (c1ProtocolAfter, c1ContentAfter) ∧
    c1ProtocolAfter.daily_submission_count = MAX_DAILY_SUBMISSIONS + 1 := by
  exact ⟨by decide, by decide, by decide, by decide⟩

def c2Protocol : ProtocolState :=
  { admin := 5, treasury := 2, stake_required := 100, voting_period := 86400,
    quorum_percentage := 50, reward_per_vote := 10, is_paused := false,
    daily_submission_count := 0, daily_vote_count := 0,
    last_reset_timestamp := 0, last_reward_distribution_timestamp := 0,
    version := 3, bump := 0, emergency_admins := [5] }

def c2Dup : ProtocolState :=
  { c2Protocol with emergency_admins := [5, 5] }

def c2Emptied : ProtocolState :=
  { c2Protocol with emergency_admins := [] }

/-- C2 counterexample: from the post-initialization singleton admin set [5],
admin 5 duplicate-adds itself (add_emergency_admin has no duplicate check) and
then removes itself; remove_emergency_admin removes every occurrence of the
target, so the set reaches size 0, refuting the never-empty invariant. -/
theorem c2_admins_can_empty :
    add_emergency_admin c2Protocol 5 5 = .ok c2Dup ∧
    remove_emergency_admin c2Dup 5 5 = .ok c2Emptied ∧
    c2Emptied.emergency_admins = [] := by
  exact ⟨by decide, by decide, by decide⟩

/-- Helper for C2: a successful remove_emergency_admin filters the admin list. -/
theorem remove_emergency_admin_ok (p q : ProtocolState) (caller target : Pubkey)
    (h : remove_emergency_admin p caller target = .ok q) :
    q.emergency_admins = p.emergency_admins.filter (fun a => a != target) := by
  unfold remove_emergency_admin at h
  split at h
  · split at h
    · cases h
      rfl
    · cases h
  · cases h

/-- C2 (amended): removal with at most one admin entry fails with
CannotRemoveLastAdmin and a successful removal filters out every occurrence of
the target, leaving a nonempty set whenever some current entry differs from the
target; because duplicates are admitted by add_emergency_admin and removal
deletes all occurrences, a set whose entries all equal the target can still be
emptied. -/
theorem c2_remove_admin (p : ProtocolState) (caller target : Pubkey) :
    (p.emergency_admins.length ≤ 1 →
      remove_emergency_admin p caller target = .err .CannotRemoveLastAdmin) ∧
    (∀ q, remove_emergency_admin p caller target = .ok q →
      q.emergency_admins = p.emergency_admins.filter (fun a => a != target) ∧
      ((∃ a ∈ p.emergency_admins, a ≠ target) → q.emergency_admins ≠ [])) := by
  constructor
  · intro h
    unfold remove_emergency_admin
    rw [if_neg (by omega)]
  · intro q hq
    have hf := remove_emergency_admin_ok p q caller target hq
    refine ⟨hf, ?_⟩
    rintro ⟨a, ha, hne⟩ hnil
    have : a ∈ q.emergency_admins := by
      rw [hf]
      exact List.mem_filter.mpr ⟨ha, by simpa using hne⟩
    rw [hnil] at this
    exact (List.not_mem_nil a) this

/-- C2 witness: with the singleton admin set, removal fails with
CannotRemoveLastAdmin. -/
theorem c2_remove_admin_witness :
    remove_emergency_admin c2Protocol 5 4 = .err .CannotRemoveLastAdmin :=
  (c2_remove_admin c2Protocol 5 4).1 (by decide)

def c3Protocol : ProtocolState :=
  { admin := 1, treasury := 2, stake_required := 100, voting_period := 86400,
    quorum_percentage := 50, reward_per_vote := 10, is_paused := false,
    daily_submission_count := 0, daily_vote_count := 0,
    last_reset_timestamp := 0, last_reward_distribution_timestamp := 0,
    version := 3, bump := 0, emergency_admins := [1] }

def c3Content : Content :=
  { submitter := 3, content_hash := [1], content_type := .Text, ai_score := 80,
    submission_time := 0, status := .Approved, approve_votes := 5,
    reject_votes := 3, total_stake := 8, voting_period := 86400,
    quorum_percentage := 50, vote_count := 2, last_vote_timestamp := 50,
    version := 3, bump := 0, moderation_flags := 0 }

/-- C3: the claim states that finalize_decision on a content whose status is
already terminal fails and leaves the status unchanged. finalize_decision never
inspects content.status: on an already Approved content past its window with
quorum met it returns Ok and silently re-decides. -/
theorem c3_refinalize_succeeds :
    c3Content.status = ContentStatus.Approved ∧
    finalize_decision c3Protocol c3Content 200000 = .ok c3Content := by
  exact ⟨by decide, by decide⟩

def c4Protocol : ProtocolState :=
  { admin := 1, treasury := 2, stake_required := 100, voting_period := 86400,
    quorum_percentage := 50, reward_per_vote := 10, is_paused := false,
    daily_submission_count := 0, daily_vote_count := 0,
    last_reset_timestamp := 0, last_reward_distribution_timestamp := 0,
    version := 3, bump := 0, emergency_admins := [1] }

def c4Content : Content :=
  { submitter := 3, content_hash := [1], content_type := .Text, ai_score := 80,
    submission_time := 0, status := .Pending, approve_votes := 0,
    reject_votes := 0, total_stake := 0, voting_period := 86400,
    quorum_percentage := 50, vote_count := 0, last_vote_timestamp := 0,
    version := 3, bump := 0, moderation_flags := 0 }

def c4Vote : Vote :=
  { voter := 9, content_id := 42, vote_type := .Approve, stake_amount := 500,
    vote_timestamp := 0, status := .Active }

/-- C4: the claim states that claim_rewards rejects the call with a typed error
before the division whenever content.total_stake = 0. The source divides with
no zero guard: with every stated precondition satisfied (protocol active,
lockup elapsed, caller is the voter, vote Active) and total_stake = 0 the
unchecked division by zero is reached and the call aborts with an arithmetic
fault instead of a typed error. -/
theorem c4_division_by_zero_reached :
    c4Content.total_stake = 0 ∧
    c4Vote.status = VoteStatus.Active ∧
    c4Vote.vote_timestamp + STAKE_LOCKUP_PERIOD ≤ 100000 ∧
    claim_rewards c4Protocol c4Content c4Vote c4Vote.voter 100000 = .panicked := by
  exact ⟨by decide, by decide, by decide, by decide⟩

/-- C8 counterexample: the pair vote_timestamp = i64 minimum,
current_timestamp = i64 maximum satisfies current ≥ vote with elapsed time far
beyond 7 days, yet calculate_time_weight returns CalculationError (the i64
checked_sub overflows) rather than 25 as the claim requires. -/
theorem c8_checked_sub_overflow :
    I64_MIN ≤ I64_MAX ∧
    calculate_time_weight I64_MIN I64_MAX = .err .CalculationError := by
  exact ⟨by decide, by decide⟩

/-- C8 (amended): for every pair with current_timestamp ≥ vote_timestamp whose
difference also fits in i64 (so the checked subtraction succeeds),
calculate_time_weight returns 100 below 86400s elapsed, 75 below 259200s,
50 below 604800s and 25 otherwise; when the difference overflows i64 it
returns CalculationError instead. -/
theorem c8_time_weight_tiers (v t : Int) (h1 : v ≤ t) (h2 : t - v ≤ I64_MAX) :
    calculate_time_weight v t =
      .ok (if t - v < 86400 then 100
           else if t - v < 259200 then 75
           else if t - v < 604800 then 50 else 25) := by
  have hmin : I64_MIN ≤ (0 : Int) := by decide
  unfold calculate_time_weight checkedSubI64
  rw [if_pos (⟨by omega, h2⟩ : I64_MIN ≤ t - v ∧ t - v ≤ I64_MAX)]
  show (if t - v < 86400 then (ProgResult.ok 100 : ProgResult Nat)
        else if t - v < 259200 then .ok 75
        else if t - v < 604800 then .ok 50 else .ok 25) = _
  split_ifs <;> rfl

/-- C8 witness: 25 hours elapsed yields weight 75. -/
theorem c8_time_weight_tiers_witness :
    calculate_time_weight 0 90000 = .ok 75 :=
  (c8_time_weight_tiers 0 90000 (by decide) (by decide)).trans (by decide)

/-- C6: whenever finalize_decision succeeds, the resulting status is Approved
exactly when approve_votes > reject_votes and Rejected otherwise; a tie
finalizes to Rejected. -/
theorem c6_majority_tie_to_reject (p : ProtocolState) (c : Content) (now : Int)
    (c' : Content) (h : finalize_decision p c now = .ok c') :
    c'.status = (if c.reject_votes < c.approve_votes then ContentStatus.Approved
                 else ContentStatus.Rejected) ∧
    (c.approve_votes = c.reject_votes → c'.status = ContentStatus.Rejected) := by
  unfold finalize_decision at h
  split_ifs at h with h1 h2 h3 h4 h5 h6 <;> try cases h
  · exact ⟨by rw [if_pos h6], fun he => absurd h6 (by omega)⟩
  · exact ⟨by rw [if_neg h6], fun he => rfl⟩

def c6Protocol : ProtocolState :=
  { admin := 1, treasury := 2, stake_required := 100, voting_period := 86400,
    quorum_percentage := 50, reward_per_vote := 10, is_paused := false,
    daily_submission_count := 0, daily_vote_count := 0,
    last_reset_timestamp := 0, last_reward_distribution_timestamp := 0,
    version := 3, bump := 0, emergency_admins := [1] }

def c6Tie : Content :=
  { submitter := 3, content_hash := [1], content_type := .Text, ai_score := 80,
    submission_time := 0, status := .Pending, approve_votes := 400,
    reject_votes := 400, total_stake := 800, voting_period := 86400,
    quorum_percentage := 50, vote_count := 2, last_vote_timestamp := 50,
    version := 3, bump := 0, moderation_flags := 0 }

def c6TieFinal : Content := { c6Tie with status := ContentStatus.Rejected }

/-- C6 witness: a 400/400 tie that passes quorum finalizes to Rejected. -/
theorem c6_majority_tie_to_reject_witness :
    c6TieFinal.status = ContentStatus.Rejected :=
  (c6_majority_tie_to_reject c6Protocol c6Tie 200000 c6TieFinal (by decide)).2
    (by decide)

theorem checkedAddU64_some (a b r : Nat) (h : checkedAddU64 a b = some r) :
    r = a + b ∧ a + b ≤ U64_MAX := by
  unfold checkedAddU64 at h
  split at h
  · exact ⟨(Option.some.inj h).symm, by assumption⟩
  · cases h

theorem checkedAddU32_some (a b r : Nat) (h : checkedAddU32 a b = some r) :
    r = a + b ∧ a + b ≤ U32_MAX := by
  unfold checkedAddU32 at h
  split at h
  · exact ⟨(Option.some.inj h).symm, by assumption⟩
  · cases h

/-- What a successful process_vote does to the content record. -/
theorem process_vote_ok_inv (c c' : Content) (vt : VoteType) (s : Nat) (t : Int)
    (h : c.process_vote vt s t = .ok c') :
    c'.total_stake = c.total_stake + s ∧
    c'.approve_votes + c'.reject_votes = c.approve_votes + c.reject_votes + s ∧
    c'.quorum_percentage = c.quorum_percentage ∧
    c'.submission_time = c.submission_time ∧
    c'.voting_period = c.voting_period ∧
    c'.last_vote_timestamp = t ∧
    c'.vote_count = c.vote_count + 1 ∧
    c'.status = c.status := by
  unfold Content.process_vote at h
  cases vt with
  | Approve =>
    cases hav : checkedAddU64 c.approve_votes s with
    | none => rw [hav] at h; cases h
    | some av =>
      rw [hav] at h
      cases hts : checkedAddU64 c.total_stake s with
      | none => rw [hts] at h; cases h
      | some ts =>
        rw [hts] at h
        cases hvc : checkedAddU32 c.vote_count 1 with
        | none => rw [hvc] at h; cases h
        | some vc =>
          rw [hvc] at h
          cases h
          obtain ⟨e1, -⟩ := checkedAddU64_some _ _ _ hav
          obtain ⟨e2, -⟩ := checkedAddU64_some _ _ _ hts
          obtain ⟨e3, -⟩ := checkedAddU32_some _ _ _ hvc
          refine ⟨by simpa using e2, by simp; omega, rfl, rfl, rfl, rfl,
                  by simpa using e3, rfl⟩
  | Reject =>
    cases hrv : checkedAddU64 c.reject_votes s with
    | none => rw [hrv] at h; cases h
    | some rv =>
      rw [hrv] at h
      cases hts : checkedAddU64 c.total_stake s with
      | none => rw [hts] at h; cases h
      | some ts =>
        rw [hts] at h
        cases hvc : checkedAddU32 c.vote_count 1 with
        | none => rw [hvc] at h; cases h
        | some vc =>
          rw [hvc] at h
          cases h
          obtain ⟨e1, -⟩ := checkedAddU64_some _ _ _ hrv
          obtain ⟨e2, -⟩ := checkedAddU64_some _ _ _ hts
          obtain ⟨e3, -⟩ := checkedAddU32_some _ _ _ hvc
          refine ⟨by simpa using e2, by simp; omega, rfl, rfl, rfl, rfl,
                  by simpa using e3, rfl⟩

/-- The accounting equality is preserved by every successful vote sequence. -/
theorem processVotes_preserves_sum (vs : List (VoteType × Nat × Int)) :
    ∀ c c' : Content, c.approve_votes + c.reject_votes = c.total_stake →
      processVotes c vs = .ok c' →
      c'.approve_votes + c'.reject_votes = c'.total_stake := by
  induction vs with
  | nil =>
    intro c c' h0 h
    unfold processVotes at h
    cases h
    exact h0
  | cons v rest ih =>
    intro c c' h0 h
    obtain ⟨vt, s, t⟩ := v
    unfold processVotes at h
    cases hc : c.process_vote vt s t with
    | ok c1 =>
      rw [hc] at h
      obtain ⟨e1, e2, -⟩ := process_vote_ok_inv c c1 vt s t hc
      exact ih c1 c' (by omega) h
    | err e => rw [hc] at h; cases h
    | panicked => rw [hc] at h; cases h

/-- A freshly submitted content starts with zeroed vote accumulators. -/
theorem submit_content_fresh (p : ProtocolState) (submitter : Pubkey)
    (d : ContentData) (now : Int) (bump : Nat) (p' : ProtocolState)
    (c0 : Content) (h : submit_content p zeroContent submitter d now bump = .ok (p', c0)) :
    c0.approve_votes = 0 ∧ c0.reject_votes = 0 ∧ c0.total_stake = 0 := by
  unfold submit_content at h
  split_ifs at h
  dsimp only at h
  cases hinc : (p.check_and_update_daily_limits now).increment_submission_count with
  | ok p2 => rw [hinc] at h; cases h; exact ⟨rfl, rfl, rfl⟩
  | err e => rw [hinc] at h; cases h
  | panicked => rw [hinc] at h; cases h

/-- C5: starting from a freshly submitted content, after every successful
sequence of process_vote calls the accounting invariant
approve_votes + reject_votes = total_stake holds (each vote adds its stake to
exactly one side and identically to total_stake). -/
theorem c5_vote_accounting (p : ProtocolState) (submitter : Pubkey)
    (d : ContentData) (now : Int) (bump : Nat) (p' : ProtocolState)
    (c0 : Content) (vs : List (VoteType × Nat × Int)) (c' : Content)
    (hsub : submit_content p zeroContent submitter d now bump = .ok (p', c0))
    (hv : processVotes c0 vs = .ok c') :
    c'.approve_votes + c'.reject_votes = c'.total_stake := by
  obtain ⟨h1, h2, h3⟩ := submit_content_fresh p submitter d now bump p' c0 hsub
  exact processVotes_preserves_sum vs c0 c' (by omega) hv

def c5Protocol : ProtocolState :=
  { admin := 1, treasury := 2, stake_required := 100, voting_period := 86400,
    quorum_percentage := 50, reward_per_vote := 10, is_paused := false,
    daily_submission_count := 0, daily_vote_count := 0,
    last_reset_timestamp := 0, last_reward_distribution_timestamp := 0,
    version := 3, bump := 0, emergency_admins := [1] }

def c5Data : ContentData :=
  { content_hash := [7], content_type := .Image, ai_score := 60 }

def c5ProtocolAfter : ProtocolState :=
  { c5Protocol with daily_submission_count := 1 }

def c5Submitted : Content := initContent zeroContent 3 c5Data c5Protocol 0 0

def c5AfterVotes : Content :=
  { c5Submitted with
    approve_votes := 500, reject_votes := 400, total_stake := 900,
    vote_count := 2, last_vote_timestamp := 20 }

/-- C5 witness: submit, then one approve of 500 and one reject of 400 give
500 + 400 = 900. -/
theorem c5_vote_accounting_witness :
    c5AfterVotes.approve_votes + c5AfterVotes.reject_votes =
      c5AfterVotes.total_stake :=
  c5_vote_accounting c5Protocol 3 c5Data 0 0 c5ProtocolAfter c5Submitted
    [(VoteType.Approve, 500, 10), (VoteType.Reject, 400, 20)] c5AfterVotes
    (by decide) (by decide)

/-- A successful increment_vote_count only bumps the daily vote counter. -/
theorem increment_vote_count_ok (p q : ProtocolState)
    (h : p.increment_vote_count = .ok q) :
    q = { p with daily_vote_count := p.daily_vote_count + 1 } := by
  unfold ProtocolState.increment_vote_count at h
  cases hadd : checkedAddU32 p.daily_vote_count 1 with
  | none => rw [hadd] at h; cases h
  | some n =>
    rw [hadd] at h
    cases h
    obtain ⟨e, -⟩ := checkedAddU32_some _ _ _ hadd
    rw [e]

theorem increment_vote_count_ok_of_bound (p : ProtocolState)
    (h : p.daily_vote_count + 1 ≤ U32_MAX) :
    p.increment_vote_count =
      .ok { p with daily_vote_count := p.daily_vote_count + 1 } := by
  unfold ProtocolState.increment_vote_count checkedAddU32
  rw [if_pos h]

theorem validate_vote_ok_of (p : ProtocolState) (c : Content) (s : Nat) (t : Int)
    (hp : p.is_paused = false)
    (hs : p.stake_required ≤ s ∧ s ≤ MAX_STAKE_PER_USER)
    (hw : t ≤ c.submission_time + c.voting_period)
    (hcd : c.last_vote_timestamp + VOTE_COOLDOWN_PERIOD ≤ t) :
    p.validate_vote_transaction c s t = .ok () := by
  simp [ProtocolState.validate_vote_transaction, hp, hs.1, hs.2, hw, hcd]

theorem validate_vote_too_frequent (p : ProtocolState) (c : Content) (s : Nat)
    (t : Int) (hp : p.is_paused = false)
    (hs : p.stake_required ≤ s ∧ s ≤ MAX_STAKE_PER_USER)
    (hw : t ≤ c.submission_time + c.voting_period)
    (hcd : ¬ (c.last_vote_timestamp + VOTE_COOLDOWN_PERIOD ≤ t)) :
    p.validate_vote_transaction c s t = .err .VotingTooFrequent := by
  simp [ProtocolState.validate_vote_transaction, hp, hs.1, hs.2, hw, hcd]

theorem process_vote_approve_ok (c : Content) (s : Nat) (t : Int)
    (h1 : c.approve_votes + s ≤ U64_MAX) (h2 : c.total_stake + s ≤ U64_MAX)
    (h3 : c.vote_count + 1 ≤ U32_MAX) :
    c.process_vote VoteType.Approve s t =
      .ok { c with
            approve_votes := c.approve_votes + s,
            total_stake := c.total_stake + s,
            vote_count := c.vote_count + 1, last_vote_timestamp := t } := by
  simp only [Content.process_vote, checkedAddU64, checkedAddU32,
             if_pos h1, if_pos h2, if_pos h3]

theorem process_vote_reject_ok (c : Content) (s : Nat) (t : Int)
    (h1 : c.reject_votes + s ≤ U64_MAX) (h2 : c.total_stake + s ≤ U64_MAX)
    (h3 : c.vote_count + 1 ≤ U32_MAX) :
    c.process_vote VoteType.Reject s t =
      .ok { c with
            reject_votes := c.reject_votes + s,
            total_stake := c.total_stake + s,
            vote_count := c.vote_count + 1, last_vote_timestamp := t } := by
  simp only [Content.process_vote, checkedAddU64, checkedAddU32,
             if_pos h1, if_pos h2, if_pos h3]

/-- Facts forced by a successful cast_vote: the protocol only gains one daily
vote, it was unpaused, and the content's cooldown watermark becomes the vote
time. -/
theorem cast_vote_ok_inv (p : ProtocolState) (c : Content) (voter ck : Pubkey)
    (vt : VoteType) (s : Nat) (t : Int) (p1 : ProtocolState) (c1 : Content)
    (v1 : Vote) (h : cast_vote p c voter ck vt s t = .ok (p1, c1, v1)) :
    p1.is_paused = p.is_paused ∧ p1.stake_required = p.stake_required ∧
    p1.daily_vote_count = p.daily_vote_count + 1 ∧
    p.is_paused = false ∧ c1.last_vote_timestamp = t := by
  unfold cast_vote at h
  cases hval : p.validate_vote_transaction c s t with
  | err e => rw [hval] at h; cases h
  | panicked => rw [hval] at h; cases h
  | ok u =>
    rw [hval] at h
    cases hpv : c.process_vote vt s t with
    | err e => rw [hpv] at h; cases h
    | panicked => rw [hpv] at h; cases h
    | ok cx =>
      rw [hpv] at h
      dsimp only at h
      obtain ⟨-, -, -, -, -, hlvt, -, -⟩ := process_vote_ok_inv c cx vt s t hpv
      cases hinc : p.increment_vote_count with
      | err e => rw [hinc] at h; cases h
      | panicked => rw [hinc] at h; cases h
      | ok px =>
        have hq := increment_vote_count_ok p px hinc
        subst hq
        rw [hinc] at h
        cases h
        have hpf : p.is_paused = false := by
          cases hb : p.is_paused
          · rfl
          · unfold ProtocolState.validate_vote_transaction at hval
            rw [hb] at hval
            simp at hval
        exact ⟨rfl, rfl, rfl, hpf, hlvt⟩

/-- C7: after a successful vote at time t on a content, a second vote on the
same content by any voter at t + VOTE_COOLDOWN_PERIOD - 1 fails with the
VotingTooFrequent state error, while at exactly t + VOTE_COOLDOWN_PERIOD, with
the other preconditions met (stake in range, window open, accumulators and
counters below their bounds), it succeeds; the cooldown reads only the
content's last_vote_timestamp, never the voter, so it is content-scoped. -/
theorem c7_cooldown (p : ProtocolState) (c : Content) (voter1 voter2 ck : Pubkey)
    (vt1 vt2 : VoteType) (s1 s2 : Nat) (t : Int) (p1 : ProtocolState)
    (c1 : Content) (v1 : Vote)
    (h1 : cast_vote p c voter1 ck vt1 s1 t = .ok (p1, c1, v1))
    (hs : p1.stake_required ≤ s2 ∧ s2 ≤ MAX_STAKE_PER_USER)
    (hwin : t + VOTE_COOLDOWN_PERIOD ≤ c1.submission_time + c1.voting_period)
    (ha1 : c1.approve_votes + s2 ≤ U64_MAX)
    (ha2 : c1.reject_votes + s2 ≤ U64_MAX)
    (ha3 : c1.total_stake + s2 ≤ U64_MAX)
    (ha4 : c1.vote_count + 1 ≤ U32_MAX)
    (ha5 : p1.daily_vote_count + 1 ≤ U32_MAX) :
    cast_vote p1 c1 voter2 ck vt2 s2 (t + VOTE_COOLDOWN_PERIOD - 1) =
      .err .VotingTooFrequent ∧
    ∃ p2 c2 v2, cast_vote p1 c1 voter2 ck vt2 s2 (t + VOTE_COOLDOWN_PERIOD) =
      .ok (p2, c2, v2) := by
  obtain ⟨hpp, hsr, hdc, hpf, hlvt⟩ :=
    cast_vote_ok_inv p c voter1 ck vt1 s1 t p1 c1 v1 h1
  have hp1f : p1.is_paused = false := by rw [hpp, hpf]
  constructor
  · have hval := validate_vote_too_frequent p1 c1 s2 (t + VOTE_COOLDOWN_PERIOD - 1)
      hp1f hs (by omega) (by rw [hlvt]; omega)
    unfold cast_vote
    rw [hval]
  · have hval := validate_vote_ok_of p1 c1 s2 (t + VOTE_COOLDOWN_PERIOD)
      hp1f hs hwin (by rw [hlvt])
    cases vt2 with
    | Approve =>
      have hpv := process_vote_approve_ok c1 s2 (t + VOTE_COOLDOWN_PERIOD) ha1 ha3 ha4
      have hinc := increment_vote_count_ok_of_bound p1 ha5
      refine ⟨{ p1 with daily_vote_count := p1.daily_vote_count + 1 },
              { c1 with
                approve_votes := c1.approve_votes + s2,
                total_stake := c1.total_stake + s2,
                vote_count := c1.vote_count + 1,
                last_vote_timestamp := t + VOTE_COOLDOWN_PERIOD },
              initVote voter2 ck VoteType.Approve s2 (t + VOTE_COOLDOWN_PERIOD), ?_⟩
      simp only [cast_vote, hval, hpv, hinc]
    | Reject =>
      have hpv := process_vote_reject_ok c1 s2 (t + VOTE_COOLDOWN_PERIOD) ha2 ha3 ha4
      have hinc := increment_vote_count_ok_of_bound p1 ha5
      refine ⟨{ p1 with daily_vote_count := p1.daily_vote_count + 1 },
              { c1 with
                reject_votes := c1.reject_votes + s2,
                total_stake := c1.total_stake + s2,
                vote_count := c1.vote_count + 1,
                last_vote_timestamp := t + VOTE_COOLDOWN_PERIOD },
              initVote voter2 ck VoteType.Reject s2 (t + VOTE_COOLDOWN_PERIOD), ?_⟩
      simp only [cast_vote, hval, hpv, hinc]

def c7Protocol : ProtocolState :=
  { admin := 1, treasury := 2, stake_required := 100, voting_period := 86400,
    quorum_percentage := 50, reward_per_vote := 10, is_paused := false,
    daily_submission_count := 0, daily_vote_count := 0,
    last_reset_timestamp := 0, last_reward_distribution_timestamp := 0,
    version := 3, bump := 0, emergency_admins := [1] }

def c7Content : Content :=
  { submitter := 3, content_hash := [1], content_type := .Text, ai_score := 80,
    submission_time := 0, status := .Pending, approve_votes := 0,
    reject_votes := 0, total_stake := 0, voting_period := 86400,
    quorum_percentage := 50, vote_count := 0, last_vote_timestamp := 0,
    version := 3, bump := 0, moderation_flags := 0 }

def c7ProtocolAfter : ProtocolState := { c7Protocol with daily_vote_count := 1 }

def c7ContentAfter : Content :=
  { c7Content with
    approve_votes := 500, total_stake := 500, vote_count := 1,
    last_vote_timestamp := 100 }

def c7FirstVote : Vote := initVote 11 77 VoteType.Approve 500 100

/-- C7 witness: voter 11 votes at t = 100; a different voter 22 voting on the
same content at t + VOTE_COOLDOWN_PERIOD - 1 is rejected with
VotingTooFrequent. -/
theorem c7_cooldown_witness :
    cast_vote c7ProtocolAfter c7ContentAfter 22 77 VoteType.Reject 600
      (100 + VOTE_COOLDOWN_PERIOD - 1) = .err .VotingTooFrequent :=
  (c7_cooldown c7Protocol c7Content 11 22 77 VoteType.Approve VoteType.Reject
    500 600 100 c7ProtocolAfter c7ContentAfter c7FirstVote
    (by decide) (by decide) (by decide) (by decide) (by decide) (by decide)
    (by decide) (by decide)).1

/-- Folding n identical approve votes of stake s grows the accumulators by
n * s and leaves the quorum, window and status data untouched. -/
theorem processVotes_replicate (s : Nat) (ts : Int) :
    ∀ (n : Nat) (c : Content),
      c.approve_votes + n * s ≤ U64_MAX →
      c.total_stake + n * s ≤ U64_MAX →
      c.vote_count + n ≤ U32_MAX →
      ∃ c', processVotes c (List.replicate n (VoteType.Approve, s, ts)) = .ok c' ∧
        c'.approve_votes = c.approve_votes + n * s ∧
        c'.reject_votes = c.reject_votes ∧
        c'.total_stake = c.total_stake + n * s ∧
        c'.quorum_percentage = c.quorum_percentage ∧
        c'.submission_time = c.submission_time ∧
        c'.voting_period = c.voting_period := by
  intro n
  induction n with
  | zero =>
    intro c h1 h2 h3
    exact ⟨c, rfl, by simp, rfl, by simp, rfl, rfl, rfl⟩
  | succ k ih =>
    intro c h1 h2 h3
    have hmul : (k + 1) * s = k * s + s := by ring
    rw [hmul] at h1 h2
    have hpv := process_vote_approve_ok c s ts (by omega) (by omega) (by omega)
    obtain ⟨c', hrun, e1, e2, e3, e4, e5, e6⟩ :=
      ih { c with
           approve_votes := c.approve_votes + s,
           total_stake := c.total_stake + s,
           vote_count := c.vote_count + 1, last_vote_timestamp := ts }
        (by show c.approve_votes + s + k * s ≤ U64_MAX; omega)
        (by show c.total_stake + s + k * s ≤ U64_MAX; omega)
        (by show c.vote_count + 1 + k ≤ U32_MAX; omega)
    refine ⟨c', ?_, ?_, e2, ?_, e4, e5, e6⟩
    · rw [List.replicate_succ]
      simp only [processVotes, hpv]
      exact hrun
    · rw [e1]
      show c.approve_votes + s + k * s = c.approve_votes + (k + 1) * s
      omega
    · rw [e3]
      show c.total_stake + s + k * s = c.total_stake + (k + 1) * s
      omega

def c9Protocol : ProtocolState :=
  { admin := 1, treasury := 2, stake_required := 100, voting_period := 86400,
    quorum_percentage := 90, reward_per_vote := 10, is_paused := false,
    daily_submission_count := 0, daily_vote_count := 0,
    last_reset_timestamp := 0, last_reward_distribution_timestamp := 0,
    version := 3, bump := 0, emergency_admins := [1] }

def c9Data : ContentData :=
  { content_hash := [2], content_type := .Text, ai_score := 80 }

def c9Base : Content := initContent zeroContent 3 c9Data c9Protocol 0 0

/-- C9: the quorum test of finalize_decision runs on unchecked u64 arithmetic.
Under the precondition total_stake ≤ u64::MAX / quorum_percentage (together
with the vote-accounting invariant approve_votes + reject_votes = total_stake)
it never reaches the arithmetic fault, while the checked-add vote accumulation
of process_vote permits a state - 21 million maximal 10^10 stakes on a freshly
submitted quorum-90 content - whose quorum multiplication overflows u64 and
makes finalize_decision fault. -/
theorem c9_quorum_overflow :
    (∀ p c now, c.approve_votes + c.reject_votes = c.total_stake →
      c.total_stake ≤ U64_MAX / c.quorum_percentage →
      finalize_decision p c now ≠ .panicked) ∧
    (∃ vs c, processVotes c9Base vs = .ok c ∧
      U64_MAX < c.total_stake * c.quorum_percentage ∧
      finalize_decision c9Protocol c
        (c.submission_time + c.voting_period + 1) = .panicked) := by
  constructor
  · intro p c now h1 h2 hcon
    have hd : U64_MAX / c.quorum_percentage ≤ U64_MAX := Nat.div_le_self _ _
    unfold finalize_decision at hcon
    split_ifs at hcon with g1 g2 g3 g4 g5 <;> try cases hcon
    · omega
    · rcases Nat.eq_zero_or_pos c.quorum_percentage with hq | hq
      · rw [hq] at g4
        simp at g4
      · have hmle := (Nat.le_div_iff_mul_le hq).mp h2
        omega
  · refine ⟨List.replicate 21000000 (VoteType.Approve, 10000000000, 1), ?_⟩
    obtain ⟨c', hrun, e1, e2, e3, e4, e5, e6⟩ :=
      processVotes_replicate 10000000000 1 21000000 c9Base
        (by decide) (by decide) (by decide)
    refine ⟨c', hrun, ?_, ?_⟩
    · rw [e3, e4]
      decide
    · unfold finalize_decision
      rw [if_neg (show ¬(c9Protocol.is_paused = true) by decide)]
      rw [if_pos (show c'.submission_time + c'.voting_period <
            c'.submission_time + c'.voting_period + 1 by omega)]
      rw [if_neg (show ¬(U64_MAX < c'.approve_votes + c'.reject_votes) by
            rw [e1, e2]; decide)]
      rw [if_pos (show U64_MAX < c'.total_stake * c'.quorum_percentage by
            rw [e3, e4]; decide)]

/-- C9 witness: on the freshly submitted quorum-90 content the no-fault
precondition holds concretely. -/
theorem c9_quorum_overflow_witness :
    finalize_decision c9Protocol c9Base 100000 ≠ ProgResult.panicked :=
  c9_quorum_overflow.1 c9Protocol c9Base 100000 (by decide) (by decide)

def c10Protocol : ProtocolState :=
  { admin := 1, treasury := 2, stake_required := 100, voting_period := 86400,
    quorum_percentage := 50, reward_per_vote := 10, is_paused := false,
    daily_submission_count := 0, daily_vote_count := 0,
    last_reset_timestamp := 0, last_reward_distribution_timestamp := 0,
    version := 3, bump := 0, emergency_admins := [1] }

def c10Vote : Vote :=
  { voter := 9, content_id := 5, vote_type := .Approve, stake_amount := 500,
    vote_timestamp := 0, status := .Active }

def c10ZeroContent : Content :=
  { submitter := 3, content_hash := [4], content_type := .Image, ai_score := 70,
    submission_time := 0, status := .Pending, approve_votes := 0,
    reject_votes := 0, total_stake := 0, voting_period := 86400,
    quorum_percentage := 50, vote_count := 0, last_vote_timestamp := 0,
    version := 3, bump := 0, moderation_flags := 0 }

/-- C10 counterexample: an Active vote past its lockup with the matching
caller, presented with a content account whose total_stake is 0 (the vote's
content_id does not reference it), does not succeed: the unguarded division by
zero aborts the call, refuting the claim that every such call succeeds for
whatever content account the caller supplies. -/
theorem c10_zero_stake_supplied_content :
    c10Vote.status = VoteStatus.Active ∧
    c10Vote.vote_timestamp + STAKE_LOCKUP_PERIOD ≤ 100000 ∧
    claim_rewards c10Protocol c10ZeroContent c10Vote c10Vote.voter 100000 =
      .panicked := by
  exact ⟨by decide, by decide, by decide⟩

/-- C10 (amended): claim_rewards checks only the pause flag, the lockup, the
caller identity and the Active status, and never compares vote.content_id with
the supplied content account: for any value of the vote's content_id, provided
the reward arithmetic does not fault (total_stake positive and
stake_amount * reward_per_vote within u64), the call succeeds with the reward
computed from whatever content account the caller supplies. -/
theorem c10_no_content_binding (p : ProtocolState) (c : Content) (v : Vote)
    (k : Pubkey) (now : Int) (cid : Pubkey)
    (hp : p.is_paused = false)
    (hl : v.vote_timestamp + STAKE_LOCKUP_PERIOD ≤ now)
    (hv : v.voter = k) (hs : v.status = VoteStatus.Active)
    (hm : v.stake_amount * p.reward_per_vote ≤ U64_MAX)
    (h0 : 0 < c.total_stake) :
    claim_rewards p c { v with content_id := cid } k now =
      .ok ({ v with content_id := cid, status := .Rewarded },
           v.stake_amount * p.reward_per_vote / c.total_stake) := by
  have h0' : c.total_stake ≠ 0 := by omega
  have hm' : ¬ (U64_MAX < v.stake_amount * p.reward_per_vote) := by omega
  simp [claim_rewards, hp, hl, hv, hs, hm', h0']

def c10RewardContent : Content :=
  { c10ZeroContent with total_stake := 100 }

/-- C10 witness: with a content holding total_stake 100 that the vote's
content_id 5 does not reference (content_id rewritten to 77), the claim pays
500 * 10 / 100 = 50. -/
theorem c10_no_content_binding_witness :
    claim_rewards c10Protocol c10RewardContent
      { c10Vote with content_id := 77 } 9 100000 =
      .ok ({ c10Vote with content_id := 77, status := .Rewarded }, 50) :=
  (c10_no_content_binding c10Protocol c10RewardContent c10Vote 9 100000 77
    (by decide) (by decide) (by decide) (by decide) (by decide)
    (by decide)).trans (by decide)
